import Mathlib

/-!
Verification development for the Smart Cage ML dashboard
(`smart_cage_dashboard_ml.py`): a shallow embedding of the
inference-and-aggregation pipeline (message handlers for the
temperature/humidity, gas and light channels, the per-channel logs and
statistics, the shared-settings synchronisation and the admin-session
arbitration), together with theorems about the embedded code.

Conventions of the embedding:
* Python floats are modelled as rationals (`ℚ`); the numeric payloads the
  dashboard handles are decimal literals, which are exact rationals.
* Python exceptions are modelled with `Except Unit`: a `.error ()` value is a
  raised exception, propagated by the caller unless an enclosing `try/except`
  (made explicit in each definition) catches it.
* The MQTT `client.publish` call is modelled by its outcome, a parameter
  `pub : Except Unit Unit` of each handler: `.ok ()` covers both a successful
  publish and a silent delivery failure (the handlers ignore the return
  value), `.error ()` a call that raises.
* JSON payload values are modelled by `JVal`.  String payload values are
  carried opaquely; `float()`/`int()` of a string is modelled as raising,
  which restricts the modelled domain to non-numeric strings (no claim in
  this development depends on numeric-string payloads).
-/

/-- A JSON payload value as produced by `json.loads`, restricted to the
scalar shapes the handlers consult. -/
inductive JVal where
  | jnum (q : ℚ)
  | jbool (b : Bool)
  | jstr (s : String)
  | jnull
deriving DecidableEq, Repr

/-- A parsed JSON object (`dict`): an association list of fields. -/
def JObj := List (String × JVal)

/-- Python `data.get(key, default)`. -/
def jget (data : JObj) (key : String) (dflt : JVal) : JVal :=
  (List.lookup key data).getD dflt

/-- Python truthiness (`if x:` / `if not x:`) of a payload value. -/
def pyTruthy : JVal → Bool
  | .jnum q => decide (q ≠ 0)
  | .jbool b => b
  | .jstr s => decide (s ≠ "")
  | .jnull => false

/-- Python `float(x)` on a payload value; raises `TypeError`/`ValueError`
on `None` and on (non-numeric) strings. -/
def pyFloat : JVal → Except Unit ℚ
  | .jnum q => .ok q
  | .jbool b => .ok (if b then 1 else 0)
  | .jstr _ => .error ()
  | .jnull => .error ()

/-- Python `int(x)` on a payload value (truncation toward zero on floats);
raises on `None` and on (non-numeric) strings. -/
def pyInt : JVal → Except Unit ℤ
  | .jnum q => .ok (if 0 ≤ q then ⌊q⌋ else ⌈q⌉)
  | .jbool b => .ok (if b then 1 else 0)
  | .jstr _ => .error ()
  | .jnull => .error ()

/-- Python `x > n` for a payload value `x` and a numeric literal `n`
(`bool` compares as `0`/`1`); raises `TypeError` otherwise. -/
def pyGt (v : JVal) (n : ℚ) : Except Unit Bool :=
  match v with
  | .jnum q => .ok (decide (n < q))
  | .jbool b => .ok (decide (n < (if b then (1 : ℚ) else 0)))
  | .jstr _ => .error ()
  | .jnull => .error ()

/-- Python `max(xs)` on a list; raises `ValueError` on the empty list. -/
def pyMax : List ℚ → Except Unit ℚ
  | [] => .error ()
  | h :: t => .ok (t.foldl max h)

/-- The fitted DHT11 classifier capability: `predict([[temp, humidity]])`,
optionally `predict_proba` (the `hasattr` check is modelled by the
`Option`).  Either invocation may raise at runtime. -/
structure DhtModel where
  predict : ℚ → ℚ → Except Unit String
  predict_proba : Option (ℚ → ℚ → Except Unit (List ℚ))

/-- The fitted MQ2 gas classifier capability: `predict([[gas_int, temp]])`
where `gas_int` is `0`/`1` and `temp` is the raw (uncoerced) payload
value. -/
structure GasModel where
  predict : ℤ → JVal → Except Unit String
  predict_proba : Option (ℤ → JVal → Except Unit (List ℚ))

/-- The fitted LDR classifier capability: `predict([[ldr_value]])`. -/
structure LdrModel where
  predict : ℤ → Except Unit String
  predict_proba : Option (ℤ → Except Unit (List ℚ))

/-- One entry of `st.session_state.logs` (temperature/humidity channel). -/
structure DhtEntry where
  timestamp : String
  temperature : ℚ
  humidity : ℚ
  kondisi : String
  confidence : ℚ
deriving DecidableEq, Repr

/-- One entry of `st.session_state.gas_logs`; `gas_detected` and `temp`
are stored exactly as extracted from the payload (no coercion in the
source). -/
structure GasEntry where
  timestamp : String
  gas_detected : JVal
  temp : JVal
  kondisi : String
  confidence : ℚ
deriving DecidableEq, Repr

/-- One entry of `st.session_state.ldr_logs`. -/
structure LdrEntry where
  timestamp : String
  ldr_value : ℤ
  kondisi : String
  confidence : ℚ
deriving DecidableEq, Repr

/-- `st.session_state.stats` for the temperature/humidity channel. -/
structure DhtStats where
  total_messages : ℕ
  ideal_count : ℕ
  panas_count : ℕ
  dingin_count : ℕ
deriving DecidableEq, Repr

/-- `st.session_state.gas_stats`. -/
structure GasStats where
  total_messages : ℕ
  aman_count : ℕ
  waspada_count : ℕ
  bahaya_count : ℕ
deriving DecidableEq, Repr

/-- `st.session_state.ldr_stats`. -/
structure LdrStats where
  total_messages : ℕ
  terang_count : ℕ
  redup_count : ℕ
  gelap_count : ℕ
deriving DecidableEq, Repr

/-- The temperature/humidity slice of `st.session_state`. -/
structure DhtState where
  logs : List DhtEntry
  last_data : Option DhtEntry
  stats : DhtStats
deriving DecidableEq, Repr

/-- The gas slice of `st.session_state`. -/
structure GasState where
  gas_logs : List GasEntry
  gas_last_data : Option GasEntry
  gas_stats : GasStats
deriving DecidableEq, Repr

/-- The LDR slice of `st.session_state`. -/
structure LdrState where
  ldr_logs : List LdrEntry
  ldr_last_data : Option LdrEntry
  ldr_stats : LdrStats
deriving DecidableEq, Repr

/-- The per-channel session state of one dashboard process. -/
structure AppState where
  dht : DhtState
  gas : GasState
  ldr : LdrState
deriving DecidableEq, Repr

/-- Initial `st.session_state` values for the temperature/humidity
channel. -/
def dhtInit : DhtState := ⟨[], none, ⟨0, 0, 0, 0⟩⟩

/-- Initial `st.session_state` values for the gas channel. -/
def gasInit : GasState := ⟨[], none, ⟨0, 0, 0, 0⟩⟩

/-- Initial `st.session_state` values for the LDR channel. -/
def ldrInit : LdrState := ⟨[], none, ⟨0, 0, 0, 0⟩⟩

/-- Initial per-channel session state. -/
def appInit : AppState := ⟨dhtInit, gasInit, ldrInit⟩

/-- Tail of `handle_dht_message`: store `last_data`, append the log entry,
and update the statistics (`if kondisi == "Ideal": ... elif ... elif ...`). -/
def recordDht (e : DhtEntry) (s : DhtState) : DhtState :=
  { logs := s.logs ++ [e]
    last_data := some e
    stats :=
      let st1 := { s.stats with total_messages := s.stats.total_messages + 1 }
      if e.kondisi == "Ideal" then { st1 with ideal_count := st1.ideal_count + 1 }
      else if e.kondisi == "Panas" then { st1 with panas_count := st1.panas_count + 1 }
      else if e.kondisi == "Dingin" then { st1 with dingin_count := st1.dingin_count + 1 }
      else st1 }

/-- Tail of `handle_gas_message`: store `gas_last_data`, append, update
`gas_stats`. -/
def recordGas (e : GasEntry) (s : GasState) : GasState :=
  { gas_logs := s.gas_logs ++ [e]
    gas_last_data := some e
    gas_stats :=
      let st1 := { s.gas_stats with total_messages := s.gas_stats.total_messages + 1 }
      if e.kondisi == "Aman" then { st1 with aman_count := st1.aman_count + 1 }
      else if e.kondisi == "Waspada" then { st1 with waspada_count := st1.waspada_count + 1 }
      else if e.kondisi == "Bahaya" then { st1 with bahaya_count := st1.bahaya_count + 1 }
      else st1 }

/-- Tail of `handle_ldr_message`: store `ldr_last_data`, append, update
`ldr_stats`. -/
def recordLdr (e : LdrEntry) (s : LdrState) : LdrState :=
  { ldr_logs := s.ldr_logs ++ [e]
    ldr_last_data := some e
    ldr_stats :=
      let st1 := { s.ldr_stats with total_messages := s.ldr_stats.total_messages + 1 }
      if e.kondisi == "Terang" then { st1 with terang_count := st1.terang_count + 1 }
      else if e.kondisi == "Redup" then { st1 with redup_count := st1.redup_count + 1 }
      else if e.kondisi == "Gelap" then { st1 with gelap_count := st1.gelap_count + 1 }
      else st1 }

/-- `handle_dht_message(client, data, timestamp)`.  `loaded`/`model` are
`st.session_state.model_loaded` and `st.session_state.model`; `pub` is the
outcome of the (unique) `client.publish` call.  The two `float(...)`
coercions at the top are outside any `try` block: a raise there escapes
the handler (`.error`).  The model branch's `try/except` turns every raise
inside it into `kondisi = "Error"` with `confidence` keeping the value it
had at the raise point. -/
def handle_dht_message (loaded : Bool) (model : Option DhtModel)
    (pub : Except Unit Unit) (ts : String) (data : JObj) (s : DhtState) :
    Except Unit DhtState :=
  match pyFloat (jget data "temp" (.jnum 0)) with
  | .error e => .error e
  | .ok temp =>
    match pyFloat (jget data "humidity" (.jnum 0)) with
    | .error e => .error e
    | .ok humidity =>
      let kc : String × ℚ :=
        match loaded, model with
        | true, some m =>
          match m.predict temp humidity with
          | .error _ => ("Error", 0)
          | .ok pred =>
            match m.predict_proba with
            | some pp =>
              match pp temp humidity with
              | .error _ => ("Error", 0)
              | .ok proba =>
                match pyMax proba with
                | .error _ => ("Error", 0)
                | .ok mx =>
                  match pub with
                  | .error _ => ("Error", mx * 100)
                  | .ok _ => (pred, mx * 100)
            | none =>
              match pub with
              | .error _ => ("Error", 100)
              | .ok _ => (pred, 100)
        | _, _ => ("No Model", 0)
      .ok (recordDht ⟨ts, temp, humidity, kc.1, kc.2⟩ s)

/-- `handle_gas_message(client, data, timestamp)`.  `gas_detected` and
`temp` are taken from the payload with defaults `False`/`0` and no
coercion.  In the model branch everything (including the publish) is
inside the `try`; in the rule-based fallback the `temp > 55` comparison
and the publish are outside any `try`, so a raise there escapes the
handler before any state update. -/
def handle_gas_message (loaded : Bool) (model : Option GasModel)
    (pub : Except Unit Unit) (ts : String) (data : JObj) (s : GasState) :
    Except Unit GasState :=
  let gas_detected := jget data "gas_detected" (.jbool false)
  let temp := jget data "temp" (.jnum 0)
  match loaded, model with
  | true, some m =>
    let gas_int : ℤ := if pyTruthy gas_detected then 1 else 0
    let kc : String × ℚ :=
      match m.predict gas_int temp with
      | .error _ => ("Error", 0)
      | .ok pred =>
        match m.predict_proba with
        | some pp =>
          match pp gas_int temp with
          | .error _ => ("Error", 0)
          | .ok proba =>
            match pyMax proba with
            | .error _ => ("Error", 0)
            | .ok mx =>
              match pub with
              | .error _ => ("Error", mx * 100)
              | .ok _ => (pred, mx * 100)
        | none =>
          match pub with
          | .error _ => ("Error", 100)
          | .ok _ => (pred, 100)
    .ok (recordGas ⟨ts, gas_detected, temp, kc.1, kc.2⟩ s)
  | _, _ =>
    let kondisiE : Except Unit String :=
      if pyTruthy gas_detected then
        match pyGt temp 55 with
        | .error e => .error e
        | .ok gt => .ok (if gt then "Bahaya" else "Waspada")
      else .ok "Aman"
    match kondisiE with
    | .error e => .error e
    | .ok kondisi =>
      match pub with
      | .error e => .error e
      | .ok _ => .ok (recordGas ⟨ts, gas_detected, temp, kondisi, 100⟩ s)

/-- `handle_ldr_message(client, data, timestamp)`.  The `int(...)`
coercion at the top is outside any `try`: a raise there escapes the
handler.  The fallback's publish is outside any `try` as well. -/
def handle_ldr_message (loaded : Bool) (model : Option LdrModel)
    (pub : Except Unit Unit) (ts : String) (data : JObj) (s : LdrState) :
    Except Unit LdrState :=
  match pyInt (jget data "ldr_value" (.jnum 0)) with
  | .error e => .error e
  | .ok ldr_value =>
    match loaded, model with
    | true, some m =>
      let kc : String × ℚ :=
        match m.predict ldr_value with
        | .error _ => ("Error", 0)
        | .ok pred =>
          match m.predict_proba with
          | some pp =>
            match pp ldr_value with
            | .error _ => ("Error", 0)
            | .ok proba =>
              match pyMax proba with
              | .error _ => ("Error", 0)
              | .ok mx =>
                match pub with
                | .error _ => ("Error", mx * 100)
                | .ok _ => (pred, mx * 100)
          | none =>
            match pub with
            | .error _ => ("Error", 100)
            | .ok _ => (pred, 100)
      .ok (recordLdr ⟨ts, ldr_value, kc.1, kc.2⟩ s)
    | _, _ =>
      let kondisi : String :=
        if ldr_value ≤ 1365 then "Terang"
        else if ldr_value ≤ 2730 then "Redup"
        else "Gelap"
      match pub with
      | .error e => .error e
      | .ok _ => .ok (recordLdr ⟨ts, ldr_value, kondisi, 100⟩ s)

/-- One inbound message together with its per-delivery environment (the
model slot contents at delivery time and the publish outcome). -/
inductive Event where
  | dhtMsg (loaded : Bool) (model : Option DhtModel) (pub : Except Unit Unit)
      (ts : String) (data : JObj)
  | gasMsg (loaded : Bool) (model : Option GasModel) (pub : Except Unit Unit)
      (ts : String) (data : JObj)
  | ldrMsg (loaded : Bool) (model : Option LdrModel) (pub : Except Unit Unit)
      (ts : String) (data : JObj)

/-- `on_message` dispatch: the handler for the message's topic runs; an
exception escaping the handler is caught by `on_message`'s `try/except`
(logged and dropped), leaving the session state as it was. -/
def step (ev : Event) (s : AppState) : AppState :=
  match ev with
  | .dhtMsg loaded model pub ts data =>
    match handle_dht_message loaded model pub ts data s.dht with
    | .ok d => { s with dht := d }
    | .error _ => s
  | .gasMsg loaded model pub ts data =>
    match handle_gas_message loaded model pub ts data s.gas with
    | .ok g => { s with gas := g }
    | .error _ => s
  | .ldrMsg loaded model pub ts data =>
    match handle_ldr_message loaded model pub ts data s.ldr with
    | .ok l => { s with ldr := l }
    | .error _ => s

/-- Process a sequence of inbound messages in arrival order. -/
def run (evs : List Event) (s : AppState) : AppState :=
  evs.foldl (fun s ev => step ev s) s

/-- The content of `admin_session.json` as written by
`write_admin_session`; `none` models a missing or unparseable file. -/
structure AdminSessionData where
  session_id : String
  login_time : String
deriving DecidableEq, Repr

/-- `write_admin_session(session_id)`: the durable slot after the write. -/
def write_admin_session (sid : String) (login_time : String) :
    Option AdminSessionData :=
  some ⟨sid, login_time⟩

/-- `check_session_valid(current_session_id)`: read the durable slot;
`False` when it is missing, else compare its id with the locally held one
(`None` when not logged in). -/
def check_session_valid (slot : Option AdminSessionData)
    (current_session_id : Option String) : Bool :=
  match slot with
  | none => false
  | some sd => some sd.session_id == current_session_id

/-- The admin slice of one instance's `st.session_state`. -/
structure AdminLocal where
  admin_logged_in : Bool
  admin_session_id : Option String
deriving DecidableEq, Repr

/-- The successful-login branch of the sidebar (`password ==
ADMIN_PASSWORD`): generate a fresh id, write it to the durable slot, and
enter Admin state locally.  Returns the new slot content and local state. -/
def admin_login (sid : String) (login_time : String) :
    Option AdminSessionData × AdminLocal :=
  (write_admin_session sid login_time, ⟨true, some sid⟩)

/-- The per-iteration sidebar session-validity check: while logged in, if
`check_session_valid` fails, drop to Anonymous (`admin_logged_in := False`,
`admin_session_id := None`). -/
def sidebar_session_check (slot : Option AdminSessionData)
    (a : AdminLocal) : AdminLocal :=
  if a.admin_logged_in && !check_session_valid slot a.admin_session_id then
    ⟨false, none⟩
  else a

/-- Outcome of resolving a model artifact path on disk (`os.path.exists`
plus `joblib.load`). -/
inductive LoadOutcome where
  | notFound
  | corrupt
  | loaded (m : DhtModel)

/-- The model-selection slice of `st.session_state` acted on by
`sync_settings_from_file` / `load_dht_model`. -/
structure SyncState where
  current_age_category : String
  current_model_path : String
  model : Option DhtModel
  model_loaded : Bool

/-- The parsed content of `current_settings.json`; each field is the
result of `settings.get(...)` (absent key → `none`). -/
structure SettingsFile where
  age_category : Option String
  model_path : Option String

/-- `AGE_MODEL_MAPPING`. -/
def AGE_MODEL_MAPPING : String → Option String := fun k =>
  if k = "0-3" then some "smart_cage_model_03.pkl"
  else if k = "4-7" then some "smart_cage_model_47.pkl"
  else if k = "8-14" then some "smart_cage_model_814.pkl"
  else if k = "15-21" then some "smart_cage_model_1521.pkl"
  else if k = "22-30" then some "smart_cage_model_2230.pkl"
  else none

/-- `load_dht_model(model_path)`: on a successful load, replace the model,
set `model_loaded` and `current_model_path`; on `NotFound` or a raising
`joblib.load`, return `False` and leave the state untouched.  `fs` maps an
artifact path to its load outcome. -/
def load_dht_model (fs : String → LoadOutcome) (model_path : Option String)
    (s : SyncState) : SyncState × Bool :=
  let p := model_path.getD s.current_model_path
  match fs p with
  | .loaded m => ({ s with model := some m, model_loaded := true,
                           current_model_path := p }, true)
  | _ => (s, false)

/-- `sync_settings_from_file()`: read the shared settings file (`none`
models a missing, unparseable or empty file, all falsy); when it holds a
truthy `age_category` different from the local one, adopt it and reload
the mapped model (when the category is known). -/
def sync_settings_from_file (fs : String → LoadOutcome)
    (file : Option SettingsFile) (s : SyncState) : SyncState :=
  match file with
  | none => s
  | some settings =>
    match settings.age_category with
    | none => s
    | some new_age =>
      if new_age ≠ "" ∧ new_age ≠ s.current_age_category then
        let s1 := { s with current_age_category := new_age }
        match AGE_MODEL_MAPPING new_age with
        | some mp => (load_dht_model fs (some mp) s1).1
        | none => s1
      else s

/-- `3.5` as an exact rational. -/
def q3_5 : ℚ := Rat.mk' 7 2 (by decide) (by decide)

/-- Coupling invariant between the temp/humidity log and its statistics:
the total equals the log length, each category counter counts its label's
occurrences, and `last_data` mirrors the last appended record. -/
def dhtInv (d : DhtState) : Prop :=
  d.stats.total_messages = d.logs.length ∧
  d.stats.ideal_count = d.logs.countP (fun e => e.kondisi == "Ideal") ∧
  d.stats.panas_count = d.logs.countP (fun e => e.kondisi == "Panas") ∧
  d.stats.dingin_count = d.logs.countP (fun e => e.kondisi == "Dingin") ∧
  d.last_data = d.logs.getLast?

/-- Coupling invariant for the gas channel. -/
def gasInv (g : GasState) : Prop :=
  g.gas_stats.total_messages = g.gas_logs.length ∧
  g.gas_stats.aman_count = g.gas_logs.countP (fun e => e.kondisi == "Aman") ∧
  g.gas_stats.waspada_count = g.gas_logs.countP (fun e => e.kondisi == "Waspada") ∧
  g.gas_stats.bahaya_count = g.gas_logs.countP (fun e => e.kondisi == "Bahaya") ∧
  g.gas_last_data = g.gas_logs.getLast?

/-- Coupling invariant for the LDR channel. -/
def ldrInv (l : LdrState) : Prop :=
  l.ldr_stats.total_messages = l.ldr_logs.length ∧
  l.ldr_stats.terang_count = l.ldr_logs.countP (fun e => e.kondisi == "Terang") ∧
  l.ldr_stats.redup_count = l.ldr_logs.countP (fun e => e.kondisi == "Redup") ∧
  l.ldr_stats.gelap_count = l.ldr_logs.countP (fun e => e.kondisi == "Gelap") ∧
  l.ldr_last_data = l.ldr_logs.getLast?

/-- Coupling invariant for the whole session state. -/
def appInv (a : AppState) : Prop := dhtInv a.dht ∧ gasInv a.gas ∧ ldrInv a.ldr

/-- `55.01` as an exact rational. -/
def q55_01 : ℚ := Rat.mk' 5501 100 (by decide) (by decide)

/-- C1: for every gas-channel reading processed while no gas model is
loaded, the fallback rule assigns exactly one label — `"Aman"` when
`gas_detected` is false, `"Bahaya"` when `gas_detected` is true and
`temp > 55`, `"Waspada"` when `gas_detected` is true and `temp <= 55` —
and the appended record's confidence is `100.0`. -/
theorem c1_gas_fallback_rule (loaded : Bool) (model : Option GasModel)
    (ts : String) (data : JObj) (s : GasState) (b : Bool) (t : ℚ)
    (hnm : (loaded && model.isSome) = false)
    (hgd : jget data "gas_detected" (.jbool false) = .jbool b)
    (ht : jget data "temp" (.jnum 0) = .jnum t) :
    ∃ lbl : String,
      handle_gas_message loaded model (.ok ()) ts data s
        = .ok (recordGas ⟨ts, .jbool b, .jnum t, lbl, 100⟩ s) ∧
      (b = false → lbl = "Aman") ∧
      (b = true → 55 < t → lbl = "Bahaya") ∧
      (b = true → t ≤ 55 → lbl = "Waspada") := by
  cases loaded with
  | true =>
    cases model with
    | some m => simp at hnm
    | none =>
      cases b with
      | false =>
        refine ⟨"Aman", ?_, fun _ => rfl, fun hb => by simp at hb, fun hb => by simp at hb⟩
        simp [handle_gas_message, hgd, ht, pyTruthy]
      | true =>
        by_cases hlt : (55 : ℚ) < t
        · refine ⟨"Bahaya", ?_, fun hb => by simp at hb, fun _ _ => rfl,
            fun _ hle => absurd hlt (not_lt.mpr hle)⟩
          simp [handle_gas_message, hgd, ht, pyTruthy, pyGt, hlt]
        · refine ⟨"Waspada", ?_, fun hb => by simp at hb,
            fun _ h => absurd h hlt, fun _ _ => rfl⟩
          simp [handle_gas_message, hgd, ht, pyTruthy, pyGt, hlt]
  | false =>
    cases b with
    | false =>
      refine ⟨"Aman", ?_, fun _ => rfl, fun hb => by simp at hb, fun hb => by simp at hb⟩
      cases model <;> simp [handle_gas_message, hgd, ht, pyTruthy]
    | true =>
      by_cases hlt : (55 : ℚ) < t
      · refine ⟨"Bahaya", ?_, fun hb => by simp at hb, fun _ _ => rfl,
          fun _ hle => absurd hlt (not_lt.mpr hle)⟩
        cases model <;> simp [handle_gas_message, hgd, ht, pyTruthy, pyGt, hlt]
      · refine ⟨"Waspada", ?_, fun hb => by simp at hb,
          fun _ h => absurd h hlt, fun _ _ => rfl⟩
        cases model <;> simp [handle_gas_message, hgd, ht, pyTruthy, pyGt, hlt]

/-- C1 witness: the boundary readings `gas_detected=true, temp=55` and
`gas_detected=true, temp=55.01`, processed with no gas model loaded,
yield `"Waspada"` resp. `"Bahaya"`, each recorded with confidence 100. -/
theorem c1_gas_fallback_rule_witness :
    handle_gas_message false none (.ok ()) "t"
      [("gas_detected", .jbool true), ("temp", .jnum 55)] gasInit
      = .ok (recordGas ⟨"t", .jbool true, .jnum 55, "Waspada", 100⟩ gasInit) ∧
    handle_gas_message false none (.ok ()) "t"
      [("gas_detected", .jbool true), ("temp", .jnum q55_01)] gasInit
      = .ok (recordGas ⟨"t", .jbool true, .jnum q55_01, "Bahaya", 100⟩ gasInit) := by
  constructor
  · obtain ⟨lbl, h1, _, _, h4⟩ :=
      c1_gas_fallback_rule false none "t"
        [("gas_detected", .jbool true), ("temp", .jnum 55)] gasInit true 55
        (by decide) rfl rfl
    rwa [h4 rfl (le_refl 55)] at h1
  · obtain ⟨lbl, h1, _, h3, _⟩ :=
      c1_gas_fallback_rule false none "t"
        [("gas_detected", .jbool true), ("temp", .jnum q55_01)] gasInit true q55_01
        (by decide) rfl rfl
    rwa [h3 rfl (by decide)] at h1

/-- C6: for every light-channel reading processed while no LDR model is
loaded, the fallback rule yields `"Terang"` when the value is `<= 1365`,
`"Redup"` when `1365 < value <= 2730` and `"Gelap"` when `value > 2730`,
with confidence `100.0`. -/
theorem c6_ldr_fallback_rule (loaded : Bool) (model : Option LdrModel)
    (ts : String) (data : JObj) (s : LdrState) (v : ℤ)
    (hnm : (loaded && model.isSome) = false)
    (hv : pyInt (jget data "ldr_value" (.jnum 0)) = .ok v) :
    ∃ lbl : String,
      handle_ldr_message loaded model (.ok ()) ts data s
        = .ok (recordLdr ⟨ts, v, lbl, 100⟩ s) ∧
      (v ≤ 1365 → lbl = "Terang") ∧
      (1365 < v → v ≤ 2730 → lbl = "Redup") ∧
      (2730 < v → lbl = "Gelap") := by
  have hfall : ∀ (lo : Bool) (mo : Option LdrModel), (lo && mo.isSome) = false →
      handle_ldr_message lo mo (.ok ()) ts data s
        = .ok (recordLdr ⟨ts, v,
            if v ≤ 1365 then "Terang" else if v ≤ 2730 then "Redup" else "Gelap",
            100⟩ s) := by
    intro lo mo h
    cases lo with
    | true =>
      cases mo with
      | some m => simp at h
      | none => simp [handle_ldr_message, hv]
    | false => cases mo <;> simp [handle_ldr_message, hv]
  by_cases h1 : v ≤ 1365
  · refine ⟨"Terang", ?_, fun _ => rfl,
      fun hlt _ => absurd h1 (not_le.mpr hlt), fun hlt => absurd h1 (by omega)⟩
    simpa [h1] using hfall loaded model hnm
  · by_cases h2 : v ≤ 2730
    · refine ⟨"Redup", ?_, fun hle => absurd hle h1, fun _ _ => rfl,
        fun hlt => absurd h2 (not_le.mpr hlt)⟩
      simpa [h1, h2] using hfall loaded model hnm
    · refine ⟨"Gelap", ?_, fun hle => absurd hle h1,
        fun _ hle => absurd hle h2, fun _ => rfl⟩
      simpa [h1, h2] using hfall loaded model hnm

/-- C6 witness: the boundary readings `1365 → "Terang"`, `1366 → "Redup"`,
`2730 → "Redup"`, `2731 → "Gelap"`, each recorded with confidence 100. -/
theorem c6_ldr_fallback_rule_witness :
    handle_ldr_message false none (.ok ()) "t" [("ldr_value", .jnum 1365)] ldrInit
      = .ok (recordLdr ⟨"t", 1365, "Terang", 100⟩ ldrInit) ∧
    handle_ldr_message false none (.ok ()) "t" [("ldr_value", .jnum 1366)] ldrInit
      = .ok (recordLdr ⟨"t", 1366, "Redup", 100⟩ ldrInit) ∧
    handle_ldr_message false none (.ok ()) "t" [("ldr_value", .jnum 2730)] ldrInit
      = .ok (recordLdr ⟨"t", 2730, "Redup", 100⟩ ldrInit) ∧
    handle_ldr_message false none (.ok ()) "t" [("ldr_value", .jnum 2731)] ldrInit
      = .ok (recordLdr ⟨"t", 2731, "Gelap", 100⟩ ldrInit) := by
  refine ⟨?_, ?_, ?_, ?_⟩
  · obtain ⟨lbl, h1, h2, _, _⟩ :=
      c6_ldr_fallback_rule false none "t" [("ldr_value", .jnum 1365)] ldrInit 1365
        (by decide) rfl
    rwa [h2 (by decide)] at h1
  · obtain ⟨lbl, h1, _, h3, _⟩ :=
      c6_ldr_fallback_rule false none "t" [("ldr_value", .jnum 1366)] ldrInit 1366
        (by decide) rfl
    rwa [h3 (by decide) (by decide)] at h1
  · obtain ⟨lbl, h1, _, h3, _⟩ :=
      c6_ldr_fallback_rule false none "t" [("ldr_value", .jnum 2730)] ldrInit 2730
        (by decide) rfl
    rwa [h3 (by decide) (by decide)] at h1
  · obtain ⟨lbl, h1, _, _, h4⟩ :=
      c6_ldr_fallback_rule false none "t" [("ldr_value", .jnum 2731)] ldrInit 2731
        (by decide) rfl
    rwa [h4 (by decide)] at h1

/-- C5: if instance A holds an admin session `S1` and instance B then logs
in, writing a fresh id `S2 ≠ S1` to the durable slot, A's next
per-iteration session-validity check observes the mismatch and transitions
A to Anonymous (`admin_logged_in` false, session id cleared). -/
theorem c5_admin_takeover (S1 S2 t1 t2 : String) (hne : S1 ≠ S2) :
    check_session_valid (admin_login S2 t2).1
      ((admin_login S1 t1).2).admin_session_id = false ∧
    sidebar_session_check (admin_login S2 t2).1
      (admin_login S1 t1).2 = ⟨false, none⟩ := by
  have hcheck : check_session_valid (some ⟨S2, t2⟩) (some S1) = false := by
    simp [check_session_valid]
    exact fun h => absurd h.symm hne
  refine ⟨hcheck, ?_⟩
  simp only [sidebar_session_check, admin_login, write_admin_session] at hcheck ⊢
  simp [hcheck]

/-- C5 witness: concrete takeover with `S1 = "a"`, `S2 = "b"`. -/
theorem c5_admin_takeover_witness :
    check_session_valid (admin_login "b" "t2").1
      ((admin_login "a" "t1").2).admin_session_id = false ∧
    sidebar_session_check (admin_login "b" "t2").1
      (admin_login "a" "t1").2 = ⟨false, none⟩ :=
  c5_admin_takeover "a" "b" "t1" "t2" (by decide)

/-- C8: settings reconciliation is idempotent — with no intervening
settings write (same file content, same disk), a second
`sync_settings_from_file` call leaves the local state unchanged, because
whenever the file holds a truthy category the first call has already made
it the local category. -/
theorem c8_sync_idempotent (fs : String → LoadOutcome)
    (file : Option SettingsFile) (s : SyncState) :
    sync_settings_from_file fs file (sync_settings_from_file fs file s)
      = sync_settings_from_file fs file s ∧
    (∀ f c, file = some f → f.age_category = some c → c ≠ "" →
      (sync_settings_from_file fs file s).current_age_category = c) := by
  have hcat : ∀ f c, file = some f → f.age_category = some c → c ≠ "" →
      (sync_settings_from_file fs file s).current_age_category = c := by
    intro f c hf hc hne
    subst hf
    simp only [sync_settings_from_file, hc]
    by_cases heq : c = s.current_age_category
    · simp [heq, hne]
    · simp only [ne_eq, hne, not_false_iff, heq, and_true, if_true]
      cases hm : AGE_MODEL_MAPPING c with
      | none => rfl
      | some mp =>
        simp only [load_dht_model]
        cases fs ((some mp).getD s.current_model_path) <;> rfl
  have noop : ∀ (f : SettingsFile) (c : String) (s1 : SyncState),
      f.age_category = some c → (c = "" ∨ s1.current_age_category = c) →
      sync_settings_from_file fs (some f) s1 = s1 := by
    intro f c s1 hc h
    rcases h with h | h
    · subst h; simp [sync_settings_from_file, hc]
    · simp [sync_settings_from_file, hc, h]
  refine ⟨?_, hcat⟩
  cases file with
  | none => rfl
  | some f =>
    cases hc : f.age_category with
    | none => simp [sync_settings_from_file, hc]
    | some c =>
      by_cases hne : c = ""
      · have h1 : sync_settings_from_file fs (some f) s = s :=
          noop f c s hc (Or.inl hne)
        rw [h1]; exact h1
      · exact noop f c (sync_settings_from_file fs (some f) s) hc
          (Or.inr (hcat f c rfl hc hne))

/-- C8 witness: a concrete file holding category `"4-7"` against a local
state at `"0-3"`: the second reconciliation is a no-op and finds the file
category equal to the local one. -/
theorem c8_sync_idempotent_witness :
    sync_settings_from_file (fun _ => .notFound) (some ⟨some "4-7", none⟩)
        (sync_settings_from_file (fun _ => .notFound) (some ⟨some "4-7", none⟩)
          ⟨"0-3", "smart_cage_model_03.pkl", none, false⟩)
      = sync_settings_from_file (fun _ => .notFound) (some ⟨some "4-7", none⟩)
          ⟨"0-3", "smart_cage_model_03.pkl", none, false⟩ ∧
    (sync_settings_from_file (fun _ => .notFound) (some ⟨some "4-7", none⟩)
        ⟨"0-3", "smart_cage_model_03.pkl", none, false⟩).current_age_category
      = "4-7" := by
  obtain ⟨h1, h2⟩ := c8_sync_idempotent (fun _ => .notFound)
    (some ⟨some "4-7", none⟩) ⟨"0-3", "smart_cage_model_03.pkl", none, false⟩
  exact ⟨h1, h2 ⟨some "4-7", none⟩ "4-7" rfl rfl (by decide)⟩

/-- C2: on every channel, when invocation of the loaded model (`predict`,
or `predict_proba` when present) raises, the handler catches the
exception (it returns normally), the resulting record has label `"Error"`
and confidence `0.0`, and the record is still appended to the channel's
log and counted in `total_messages`. -/
theorem c2_inference_error_handling :
    (∀ (m : DhtModel) (pub : Except Unit Unit) (ts : String) (data : JObj)
        (s : DhtState) (temp humidity : ℚ),
      pyFloat (jget data "temp" (.jnum 0)) = .ok temp →
      pyFloat (jget data "humidity" (.jnum 0)) = .ok humidity →
      (m.predict temp humidity = .error () ∨
        (∃ pp, m.predict_proba = some pp ∧ pp temp humidity = .error ())) →
      handle_dht_message true (some m) pub ts data s
          = .ok (recordDht ⟨ts, temp, humidity, "Error", 0⟩ s) ∧
        (recordDht ⟨ts, temp, humidity, "Error", 0⟩ s).logs
          = s.logs ++ [⟨ts, temp, humidity, "Error", 0⟩] ∧
        (recordDht ⟨ts, temp, humidity, "Error", 0⟩ s).stats.total_messages
          = s.stats.total_messages + 1) ∧
    (∀ (m : GasModel) (pub : Except Unit Unit) (ts : String) (data : JObj)
        (s : GasState),
      (m.predict (if pyTruthy (jget data "gas_detected" (.jbool false)) then 1 else 0)
          (jget data "temp" (.jnum 0)) = .error () ∨
        (∃ pp, m.predict_proba = some pp ∧
          pp (if pyTruthy (jget data "gas_detected" (.jbool false)) then 1 else 0)
            (jget data "temp" (.jnum 0)) = .error ())) →
      handle_gas_message true (some m) pub ts data s
          = .ok (recordGas ⟨ts, jget data "gas_detected" (.jbool false),
              jget data "temp" (.jnum 0), "Error", 0⟩ s) ∧
        (recordGas ⟨ts, jget data "gas_detected" (.jbool false),
            jget data "temp" (.jnum 0), "Error", 0⟩ s).gas_logs
          = s.gas_logs ++ [⟨ts, jget data "gas_detected" (.jbool false),
              jget data "temp" (.jnum 0), "Error", 0⟩] ∧
        (recordGas ⟨ts, jget data "gas_detected" (.jbool false),
            jget data "temp" (.jnum 0), "Error", 0⟩ s).gas_stats.total_messages
          = s.gas_stats.total_messages + 1) ∧
    (∀ (m : LdrModel) (pub : Except Unit Unit) (ts : String) (data : JObj)
        (s : LdrState) (v : ℤ),
      pyInt (jget data "ldr_value" (.jnum 0)) = .ok v →
      (m.predict v = .error () ∨
        (∃ pp, m.predict_proba = some pp ∧ pp v = .error ())) →
      handle_ldr_message true (some m) pub ts data s
          = .ok (recordLdr ⟨ts, v, "Error", 0⟩ s) ∧
        (recordLdr ⟨ts, v, "Error", 0⟩ s).ldr_logs
          = s.ldr_logs ++ [⟨ts, v, "Error", 0⟩] ∧
        (recordLdr ⟨ts, v, "Error", 0⟩ s).ldr_stats.total_messages
          = s.ldr_stats.total_messages + 1) := by
  refine ⟨?_, ?_, ?_⟩
  · intro m pub ts data s temp humidity ht hh hraise
    refine ⟨?_, by simp [recordDht], by simp [recordDht]⟩
    rcases hraise with hp | ⟨pp, hpp, hperr⟩
    · simp [handle_dht_message, ht, hh, hp]
    · cases hpred : m.predict temp humidity with
      | error e => cases e; simp [handle_dht_message, ht, hh, hpred]
      | ok pred => simp [handle_dht_message, ht, hh, hpred, hpp, hperr]
  · intro m pub ts data s hraise
    refine ⟨?_, by simp [recordGas], by simp [recordGas]⟩
    rcases hraise with hp | ⟨pp, hpp, hperr⟩
    · simp [handle_gas_message, hp]
    · cases hpred : m.predict
          (if pyTruthy (jget data "gas_detected" (.jbool false)) then 1 else 0)
          (jget data "temp" (.jnum 0)) with
      | error e => cases e; simp [handle_gas_message, hpred]
      | ok pred => simp [handle_gas_message, hpred, hpp, hperr]
  · intro m pub ts data s v hv hraise
    refine ⟨?_, by simp [recordLdr], by simp [recordLdr]⟩
    rcases hraise with hp | ⟨pp, hpp, hperr⟩
    · simp [handle_ldr_message, hv, hp]
    · cases hpred : m.predict v with
      | error e => cases e; simp [handle_ldr_message, hv, hpred]
      | ok pred => simp [handle_ldr_message, hv, hpred, hpp, hperr]

/-- C2 witness: on each channel, a model whose `predict` raises yields an
appended `"Error"` record with confidence 0 and an incremented total. -/
theorem c2_inference_error_handling_witness :
    handle_dht_message true (some ⟨fun _ _ => .error (), none⟩) (.ok ()) "t"
        [] dhtInit = .ok (recordDht ⟨"t", 0, 0, "Error", 0⟩ dhtInit) ∧
    handle_gas_message true (some ⟨fun _ _ => .error (), none⟩) (.ok ()) "t"
        [] gasInit
      = .ok (recordGas ⟨"t", .jbool false, .jnum 0, "Error", 0⟩ gasInit) ∧
    handle_ldr_message true (some ⟨fun _ => .error (), none⟩) (.ok ()) "t"
        [] ldrInit = .ok (recordLdr ⟨"t", 0, "Error", 0⟩ ldrInit) := by
  obtain ⟨hd, -, -⟩ := c2_inference_error_handling.1
    ⟨fun _ _ => .error (), none⟩ (.ok ()) "t" [] dhtInit 0 0 rfl rfl (Or.inl rfl)
  obtain ⟨hg, -, -⟩ := c2_inference_error_handling.2.1
    ⟨fun _ _ => .error (), none⟩ (.ok ()) "t" [] gasInit (Or.inl rfl)
  obtain ⟨hl, -, -⟩ := c2_inference_error_handling.2.2
    ⟨fun _ => .error (), none⟩ (.ok ()) "t" [] ldrInit 0 rfl (Or.inl rfl)
  exact ⟨hd, hg, hl⟩

/-- C3 counterexample: a gas reading processed in the rule-based fallback
path (no model loaded) while `client.publish` raises.  The publish call in
that path is outside any `try`, so the exception escapes the handler
before the append: no record is appended and nothing is counted, even
though the reading was processed (the dispatcher catches the exception,
leaving the state unchanged). -/
theorem c3_publish_failure_counterexample :
    handle_gas_message false none (.error ()) "t"
        [("gas_detected", .jbool true), ("temp", .jnum 60)] gasInit
      = .error () ∧
    (run [.gasMsg false none (.error ()) "t"
        [("gas_detected", .jbool true), ("temp", .jnum 60)]] appInit).gas.gas_logs
      = [] ∧
    (run [.gasMsg false none (.error ()) "t"
        [("gas_detected", .jbool true), ("temp", .jnum 60)]]
        appInit).gas.gas_stats.total_messages = 0 :=
  ⟨rfl, by decide, by decide⟩

/-- C3 (amended): publish failures are never fatal to the process (the
dispatcher catches every escaping exception) and local record-keeping
survives a publish call that silently fails (return value ignored) on
every path, and a publish call that raises whenever a model is in use
(the publish sits inside the handler's `try`); but in the rule-based
fallback path of the gas and light channels a raising publish escapes the
handler before the append, so that reading's record is not appended. -/
theorem c3_amended_publish_tolerance :
    (∀ (m : DhtModel) (pub : Except Unit Unit) (ts : String) (data : JObj)
        (s : DhtState) (temp humidity : ℚ),
      pyFloat (jget data "temp" (.jnum 0)) = .ok temp →
      pyFloat (jget data "humidity" (.jnum 0)) = .ok humidity →
      ∃ e, handle_dht_message true (some m) pub ts data s = .ok (recordDht e s)) ∧
    (∀ (m : GasModel) (pub : Except Unit Unit) (ts : String) (data : JObj)
        (s : GasState),
      ∃ e, handle_gas_message true (some m) pub ts data s = .ok (recordGas e s)) ∧
    (∀ (m : LdrModel) (pub : Except Unit Unit) (ts : String) (data : JObj)
        (s : LdrState) (v : ℤ),
      pyInt (jget data "ldr_value" (.jnum 0)) = .ok v →
      ∃ e, handle_ldr_message true (some m) pub ts data s = .ok (recordLdr e s)) ∧
    (∀ (pub : Except Unit Unit) (ts : String) (data : JObj) (s : DhtState)
        (temp humidity : ℚ),
      pyFloat (jget data "temp" (.jnum 0)) = .ok temp →
      pyFloat (jget data "humidity" (.jnum 0)) = .ok humidity →
      ∃ e, handle_dht_message false none pub ts data s = .ok (recordDht e s)) ∧
    (∀ (ts : String) (data : JObj) (s : GasState) (b : Bool) (t : ℚ),
      jget data "gas_detected" (.jbool false) = .jbool b →
      jget data "temp" (.jnum 0) = .jnum t →
      ∃ e, handle_gas_message false none (.ok ()) ts data s = .ok (recordGas e s)) ∧
    (∀ (ts : String) (data : JObj) (s : LdrState) (v : ℤ),
      pyInt (jget data "ldr_value" (.jnum 0)) = .ok v →
      ∃ e, handle_ldr_message false none (.ok ()) ts data s = .ok (recordLdr e s)) ∧
    (∀ (ts : String) (data : JObj) (a : AppState) (b : Bool) (t : ℚ),
      jget data "gas_detected" (.jbool false) = .jbool b →
      jget data "temp" (.jnum 0) = .jnum t →
      handle_gas_message false none (.error ()) ts data a.gas = .error () ∧
      step (.gasMsg false none (.error ()) ts data) a = a) ∧
    (∀ (ts : String) (data : JObj) (a : AppState) (v : ℤ),
      pyInt (jget data "ldr_value" (.jnum 0)) = .ok v →
      handle_ldr_message false none (.error ()) ts data a.ldr = .error () ∧
      step (.ldrMsg false none (.error ()) ts data) a = a) := by
  refine ⟨?_, ?_, ?_, ?_, ?_, ?_, ?_, ?_⟩
  · intro m pub ts data s temp humidity ht hh
    simp only [handle_dht_message, ht, hh]
    exact ⟨_, rfl⟩
  · intro m pub ts data s
    exact ⟨_, rfl⟩
  · intro m pub ts data s v hv
    simp only [handle_ldr_message, hv]
    exact ⟨_, rfl⟩
  · intro pub ts data s temp humidity ht hh
    simp only [handle_dht_message, ht, hh]
    exact ⟨_, rfl⟩
  · intro ts data s b t hgd ht
    cases b with
    | false =>
      exact ⟨⟨ts, .jbool false, .jnum t, "Aman", 100⟩,
        by simp [handle_gas_message, hgd, ht, pyTruthy]⟩
    | true =>
      by_cases hlt : (55 : ℚ) < t
      · exact ⟨⟨ts, .jbool true, .jnum t, "Bahaya", 100⟩,
          by simp [handle_gas_message, hgd, ht, pyTruthy, pyGt, hlt]⟩
      · exact ⟨⟨ts, .jbool true, .jnum t, "Waspada", 100⟩,
          by simp [handle_gas_message, hgd, ht, pyTruthy, pyGt, hlt]⟩
  · intro ts data s v hv
    by_cases h1 : v ≤ 1365
    · exact ⟨⟨ts, v, "Terang", 100⟩, by simp [handle_ldr_message, hv, h1]⟩
    · by_cases h2 : v ≤ 2730
      · exact ⟨⟨ts, v, "Redup", 100⟩, by simp [handle_ldr_message, hv, h1, h2]⟩
      · exact ⟨⟨ts, v, "Gelap", 100⟩, by simp [handle_ldr_message, hv, h1, h2]⟩
  · intro ts data a b t hgd ht
    have herr : handle_gas_message false none (.error ()) ts data a.gas
        = .error () := by
      cases b with
      | false => simp [handle_gas_message, hgd, ht, pyTruthy]
      | true =>
        by_cases hlt : (55 : ℚ) < t <;>
          simp [handle_gas_message, hgd, ht, pyTruthy, pyGt, hlt]
    exact ⟨herr, by simp [step, herr]⟩
  · intro ts data a v hv
    have herr : handle_ldr_message false none (.error ()) ts data a.ldr
        = .error () := by
      by_cases h1 : v ≤ 1365
      · simp [handle_ldr_message, hv, h1]
      · by_cases h2 : v ≤ 2730 <;> simp [handle_ldr_message, hv, h1, h2]
    exact ⟨herr, by simp [step, herr]⟩

/-- C3 (amended) witness: concrete readings exercising each clause — a
raising publish in the model path still appends, a non-raising publish in
the fallback path appends, and a raising publish in the fallback path
drops the record while the dispatcher keeps the state intact. -/
theorem c3_amended_publish_tolerance_witness :
    (∃ e, handle_dht_message true (some ⟨fun _ _ => .ok "Ideal", none⟩)
        (.error ()) "t" [] dhtInit = .ok (recordDht e dhtInit)) ∧
    (∃ e, handle_gas_message true (some ⟨fun _ _ => .ok "Aman", none⟩)
        (.error ()) "t" [] gasInit = .ok (recordGas e gasInit)) ∧
    (∃ e, handle_ldr_message true (some ⟨fun _ => .ok "Terang", none⟩)
        (.error ()) "t" [] ldrInit = .ok (recordLdr e ldrInit)) ∧
    (∃ e, handle_dht_message false none (.error ()) "t" [] dhtInit
        = .ok (recordDht e dhtInit)) ∧
    (∃ e, handle_gas_message false none (.ok ()) "t"
        [("gas_detected", .jbool true), ("temp", .jnum 60)] gasInit
        = .ok (recordGas e gasInit)) ∧
    (∃ e, handle_ldr_message false none (.ok ()) "t"
        [("ldr_value", .jnum 100)] ldrInit = .ok (recordLdr e ldrInit)) ∧
    (handle_gas_message false none (.error ()) "t"
        [("gas_detected", .jbool true), ("temp", .jnum 60)] appInit.gas
        = .error () ∧
      step (.gasMsg false none (.error ()) "t"
        [("gas_detected", .jbool true), ("temp", .jnum 60)]) appInit = appInit) ∧
    (handle_ldr_message false none (.error ()) "t"
        [("ldr_value", .jnum 100)] appInit.ldr = .error () ∧
      step (.ldrMsg false none (.error ()) "t"
        [("ldr_value", .jnum 100)]) appInit = appInit) := by
  obtain ⟨p1, p2, p3, p4, p5, p6, p7, p8⟩ := c3_amended_publish_tolerance
  exact ⟨p1 ⟨fun _ _ => .ok "Ideal", none⟩ (.error ()) "t" [] dhtInit 0 0 rfl rfl,
    p2 ⟨fun _ _ => .ok "Aman", none⟩ (.error ()) "t" [] gasInit,
    p3 ⟨fun _ => .ok "Terang", none⟩ (.error ()) "t" [] ldrInit 0 rfl,
    p4 (.error ()) "t" [] dhtInit 0 0 rfl rfl,
    p5 "t" [("gas_detected", .jbool true), ("temp", .jnum 60)] gasInit true 60 rfl rfl,
    p6 "t" [("ldr_value", .jnum 100)] ldrInit 100 rfl,
    p7 "t" [("gas_detected", .jbool true), ("temp", .jnum 60)] appInit true 60 rfl rfl,
    p8 "t" [("ldr_value", .jnum 100)] appInit 100 rfl⟩

/-- Structural shape of a successful `handle_dht_message` call: both
`float(...)` coercions succeeded and the new state is the old one with
exactly one record (carrying the coerced values) appended. -/
lemma handle_dht_message_ok (loaded : Bool) (model : Option DhtModel)
    (pub : Except Unit Unit) (ts : String) (data : JObj) (s s' : DhtState)
    (h : handle_dht_message loaded model pub ts data s = .ok s') :
    ∃ temp humidity k c,
      pyFloat (jget data "temp" (.jnum 0)) = .ok temp ∧
      pyFloat (jget data "humidity" (.jnum 0)) = .ok humidity ∧
      s' = recordDht ⟨ts, temp, humidity, k, c⟩ s := by
  unfold handle_dht_message at h
  cases ht : pyFloat (jget data "temp" (.jnum 0)) with
  | error e => rw [ht] at h; exact absurd h (by simp)
  | ok temp =>
    cases hh : pyFloat (jget data "humidity" (.jnum 0)) with
    | error e => rw [ht, hh] at h; exact absurd h (by simp)
    | ok humidity =>
      rw [ht, hh] at h
      simp only [Except.ok.injEq] at h
      exact ⟨temp, humidity, _, _, rfl, rfl, h.symm⟩

/-- Structural shape of a successful `handle_gas_message` call: the new
state is the old one with exactly one record appended, carrying the raw
(uncoerced) `gas_detected` and `temp` payload values. -/
lemma handle_gas_message_ok (loaded : Bool) (model : Option GasModel)
    (pub : Except Unit Unit) (ts : String) (data : JObj) (s s' : GasState)
    (h : handle_gas_message loaded model pub ts data s = .ok s') :
    ∃ k c, s' = recordGas ⟨ts, jget data "gas_detected" (.jbool false),
      jget data "temp" (.jnum 0), k, c⟩ s := by
  unfold handle_gas_message at h
  cases loaded with
  | true =>
    cases model with
    | some m =>
      simp only [Except.ok.injEq] at h
      exact ⟨_, _, h.symm⟩
    | none =>
      simp only at h
      split at h
      · exact absurd h (by simp)
      · split at h
        · exact absurd h (by simp)
        · simp only [Except.ok.injEq] at h
          exact ⟨_, 100, h.symm⟩
  | false =>
    cases model with
    | some m =>
      simp only at h
      split at h
      · exact absurd h (by simp)
      · split at h
        · exact absurd h (by simp)
        · simp only [Except.ok.injEq] at h
          exact ⟨_, 100, h.symm⟩
    | none =>
      simp only at h
      split at h
      · exact absurd h (by simp)
      · split at h
        · exact absurd h (by simp)
        · simp only [Except.ok.injEq] at h
          exact ⟨_, 100, h.symm⟩

/-- Structural shape of a successful `handle_ldr_message` call: the
`int(...)` coercion succeeded and the new state is the old one with
exactly one record (carrying the coerced value) appended. -/
lemma handle_ldr_message_ok (loaded : Bool) (model : Option LdrModel)
    (pub : Except Unit Unit) (ts : String) (data : JObj) (s s' : LdrState)
    (h : handle_ldr_message loaded model pub ts data s = .ok s') :
    ∃ v k c, pyInt (jget data "ldr_value" (.jnum 0)) = .ok v ∧
      s' = recordLdr ⟨ts, v, k, c⟩ s := by
  unfold handle_ldr_message at h
  cases hv : pyInt (jget data "ldr_value" (.jnum 0)) with
  | error e => rw [hv] at h; exact absurd h (by simp)
  | ok v =>
    rw [hv] at h
    refine ⟨v, ?_⟩
    cases loaded with
    | true =>
      cases model with
      | some m =>
        simp only [Except.ok.injEq] at h
        exact ⟨_, _, rfl, h.symm⟩
      | none =>
        simp only at h
        split at h
        · exact absurd h (by simp)
        · simp only [Except.ok.injEq] at h
          exact ⟨_, 100, rfl, h.symm⟩
    | false =>
      cases model with
      | some m =>
        simp only at h
        split at h
        · exact absurd h (by simp)
        · simp only [Except.ok.injEq] at h
          exact ⟨_, 100, rfl, h.symm⟩
      | none =>
        simp only at h
        split at h
        · exact absurd h (by simp)
        · simp only [Except.ok.injEq] at h
          exact ⟨_, 100, rfl, h.symm⟩

/-- C9 counterexample: an inbound gas message whose `gas_detected` field
is the number `1`.  The gas handler extracts and stores the field without
any coercion, so the record holds `1` (a number), not the boolean `true`
the claimed bool-coercion would produce; likewise no `float` coercion is
applied to `temp` on this channel. -/
theorem c9_gas_no_coercion_counterexample :
    (run [.gasMsg false none (.ok ()) "t"
        [("gas_detected", .jnum 1), ("temp", .jnum 20)]] appInit).gas.gas_logs.map
        GasEntry.gas_detected = [.jnum 1] ∧
    JVal.jnum 1 ≠ JVal.jbool true := by
  refine ⟨by decide, by decide⟩

/-- C9 (amended): the temp/humidity channel coerces `temp` and `humidity`
with `float(...)` and the light channel coerces `ldr_value` with
`int(...)`, each substituting the default `0` for a missing field, with a
failing coercion raising (the message is dropped without a record); the
gas channel extracts `gas_detected` (default `False`) and `temp` (default
`0`) with no type coercion, storing the raw payload values. -/
theorem c9_amended_decode_coercion :
    (∀ (loaded : Bool) (model : Option DhtModel) (pub : Except Unit Unit)
        (ts : String) (data : JObj) (s s' : DhtState) (temp humidity : ℚ),
      pyFloat (jget data "temp" (.jnum 0)) = .ok temp →
      pyFloat (jget data "humidity" (.jnum 0)) = .ok humidity →
      handle_dht_message loaded model pub ts data s = .ok s' →
      ∃ k c, s'.logs = s.logs ++ [⟨ts, temp, humidity, k, c⟩]) ∧
    (∀ (loaded : Bool) (model : Option DhtModel) (pub : Except Unit Unit)
        (ts : String) (data : JObj) (s : DhtState),
      pyFloat (jget data "temp" (.jnum 0)) = .error () →
      handle_dht_message loaded model pub ts data s = .error ()) ∧
    (∀ (loaded : Bool) (model : Option GasModel) (pub : Except Unit Unit)
        (ts : String) (data : JObj) (s s' : GasState),
      handle_gas_message loaded model pub ts data s = .ok s' →
      ∃ k c, s'.gas_logs = s.gas_logs
        ++ [⟨ts, jget data "gas_detected" (.jbool false),
             jget data "temp" (.jnum 0), k, c⟩]) ∧
    (∀ (loaded : Bool) (model : Option LdrModel) (pub : Except Unit Unit)
        (ts : String) (data : JObj) (s s' : LdrState) (v : ℤ),
      pyInt (jget data "ldr_value" (.jnum 0)) = .ok v →
      handle_ldr_message loaded model pub ts data s = .ok s' →
      ∃ k c, s'.ldr_logs = s.ldr_logs ++ [⟨ts, v, k, c⟩]) ∧
    (∀ (loaded : Bool) (model : Option LdrModel) (pub : Except Unit Unit)
        (ts : String) (data : JObj) (s : LdrState),
      pyInt (jget data "ldr_value" (.jnum 0)) = .error () →
      handle_ldr_message loaded model pub ts data s = .error ()) := by
  refine ⟨?_, ?_, ?_, ?_, ?_⟩
  · intro loaded model pub ts data s s' temp humidity ht hh hok
    obtain ⟨temp', humidity', k, c, ht', hh', hs⟩ :=
      handle_dht_message_ok loaded model pub ts data s s' hok
    rw [ht] at ht'
    rw [hh] at hh'
    cases ht'
    cases hh'
    exact ⟨k, c, by simp [hs, recordDht]⟩
  · intro loaded model pub ts data s ht
    simp [handle_dht_message, ht]
  · intro loaded model pub ts data s s' hok
    obtain ⟨k, c, hs⟩ := handle_gas_message_ok loaded model pub ts data s s' hok
    exact ⟨k, c, by simp [hs, recordGas]⟩
  · intro loaded model pub ts data s s' v hv hok
    obtain ⟨v', k, c, hv', hs⟩ := handle_ldr_message_ok loaded model pub ts data s s' hok
    rw [hv] at hv'
    cases hv'
    exact ⟨k, c, by simp [hs, recordLdr]⟩
  · intro loaded model pub ts data s hv
    simp [handle_ldr_message, hv]

/-- C9 (amended) witness: a boolean `temp` payload is float-coerced to 1
on the temp/humidity channel; a `None` `temp` there raises; the gas
channel stores the raw numeric `gas_detected`; a fractional `ldr_value`
is int-truncated; a `None` `ldr_value` raises. -/
theorem c9_amended_decode_coercion_witness :
    (∃ k c, (recordDht ⟨"t", 1, 0, "No Model", 0⟩ dhtInit).logs
        = dhtInit.logs ++ [⟨"t", (1 : ℚ), (0 : ℚ), k, c⟩]) ∧
    handle_dht_message false none (.ok ()) "t" [("temp", .jnull)] dhtInit
      = .error () ∧
    (∃ k c, (recordGas ⟨"t", .jnum 1, .jnum 20, "Waspada", 100⟩ gasInit).gas_logs
        = gasInit.gas_logs ++ [⟨"t", .jnum 1, .jnum 20, k, c⟩]) ∧
    (∃ k c, (recordLdr ⟨"t", 3, "Terang", 100⟩ ldrInit).ldr_logs
        = ldrInit.ldr_logs ++ [⟨"t", (3 : ℤ), k, c⟩]) ∧
    handle_ldr_message false none (.ok ()) "t" [("ldr_value", .jnull)] ldrInit
      = .error () := by
  obtain ⟨p1, p2, p3, p4, p5⟩ := c9_amended_decode_coercion
  refine ⟨?_, ?_, ?_, ?_, ?_⟩
  · exact p1 false none (.ok ()) "t" [("temp", .jbool true)] dhtInit
      (recordDht ⟨"t", 1, 0, "No Model", 0⟩ dhtInit) 1 0 rfl rfl rfl
  · exact p2 false none (.ok ()) "t" [("temp", .jnull)] dhtInit rfl
  · exact p3 false none (.ok ()) "t" [("gas_detected", .jnum 1), ("temp", .jnum 20)]
      gasInit (recordGas ⟨"t", .jnum 1, .jnum 20, "Waspada", 100⟩ gasInit) rfl
  · exact p4 false none (.ok ()) "t"
      [("ldr_value", .jnum q3_5)] ldrInit
      (recordLdr ⟨"t", 3, "Terang", 100⟩ ldrInit) 3 rfl rfl
  · exact p5 false none (.ok ()) "t" [("ldr_value", .jnull)] ldrInit rfl

lemma dhtInv_recordDht (e : DhtEntry) (d : DhtState) (h : dhtInv d) :
    dhtInv (recordDht e d) := by
  obtain ⟨h1, h2, h3, h4, h5⟩ := h
  by_cases hI : e.kondisi = "Ideal" <;>
  by_cases hP : e.kondisi = "Panas" <;>
  by_cases hD : e.kondisi = "Dingin" <;>
    simp_all [dhtInv, recordDht, List.countP_append, List.countP_cons,
      List.getLast?_concat]

lemma gasInv_recordGas (e : GasEntry) (g : GasState) (h : gasInv g) :
    gasInv (recordGas e g) := by
  obtain ⟨h1, h2, h3, h4, h5⟩ := h
  by_cases hA : e.kondisi = "Aman" <;>
  by_cases hW : e.kondisi = "Waspada" <;>
  by_cases hB : e.kondisi = "Bahaya" <;>
    simp_all [gasInv, recordGas, List.countP_append, List.countP_cons,
      List.getLast?_concat]

lemma ldrInv_recordLdr (e : LdrEntry) (l : LdrState) (h : ldrInv l) :
    ldrInv (recordLdr e l) := by
  obtain ⟨h1, h2, h3, h4, h5⟩ := h
  by_cases hT : e.kondisi = "Terang" <;>
  by_cases hR : e.kondisi = "Redup" <;>
  by_cases hG : e.kondisi = "Gelap" <;>
    simp_all [ldrInv, recordLdr, List.countP_append, List.countP_cons,
      List.getLast?_concat]

lemma appInv_step (ev : Event) (a : AppState) (h : appInv a) :
    appInv (step ev a) := by
  obtain ⟨hd, hg, hl⟩ := h
  cases ev with
  | dhtMsg loaded model pub ts data =>
    cases hres : handle_dht_message loaded model pub ts data a.dht with
    | error e => simp only [step, hres]; exact ⟨hd, hg, hl⟩
    | ok d' =>
      obtain ⟨temp, humidity, k, c, -, -, hs⟩ :=
        handle_dht_message_ok loaded model pub ts data a.dht d' hres
      simp only [step, hres]
      exact ⟨hs ▸ dhtInv_recordDht _ _ hd, hg, hl⟩
  | gasMsg loaded model pub ts data =>
    cases hres : handle_gas_message loaded model pub ts data a.gas with
    | error e => simp only [step, hres]; exact ⟨hd, hg, hl⟩
    | ok g' =>
      obtain ⟨k, c, hs⟩ :=
        handle_gas_message_ok loaded model pub ts data a.gas g' hres
      simp only [step, hres]
      exact ⟨hd, hs ▸ gasInv_recordGas _ _ hg, hl⟩
  | ldrMsg loaded model pub ts data =>
    cases hres : handle_ldr_message loaded model pub ts data a.ldr with
    | error e => simp only [step, hres]; exact ⟨hd, hg, hl⟩
    | ok l' =>
      obtain ⟨v, k, c, -, hs⟩ :=
        handle_ldr_message_ok loaded model pub ts data a.ldr l' hres
      simp only [step, hres]
      exact ⟨hd, hg, hs ▸ ldrInv_recordLdr _ _ hl⟩

lemma appInv_run (evs : List Event) (a : AppState) (h : appInv a) :
    appInv (run evs a) := by
  induction evs generalizing a with
  | nil => exact h
  | cons e t ih => exact ih (step e a) (appInv_step e a h)

lemma appInv_init : appInv appInit :=
  ⟨⟨rfl, rfl, rfl, rfl, rfl⟩, ⟨rfl, rfl, rfl, rfl, rfl⟩, ⟨rfl, rfl, rfl, rfl, rfl⟩⟩

lemma countP_three_label {α : Type} (f : α → String) (a b c : String)
    (hab : a ≠ b) (hac : a ≠ c) (hbc : b ≠ c) (l : List α) :
    l.countP (fun x => f x == a) + l.countP (fun x => f x == b)
      + l.countP (fun x => f x == c)
      = l.countP (fun x => f x == a || f x == b || f x == c) := by
  induction l with
  | nil => simp
  | cons x t ih =>
    simp only [List.countP_cons]
    by_cases h1 : f x = a <;> by_cases h2 : f x = b <;> by_cases h3 : f x = c <;>
      simp_all <;> omega

lemma dht_sum_bound (d : DhtState) (h : dhtInv d) :
    d.stats.ideal_count + d.stats.panas_count + d.stats.dingin_count
      ≤ d.stats.total_messages ∧
    (d.stats.ideal_count + d.stats.panas_count + d.stats.dingin_count
        = d.stats.total_messages ↔
      ∀ e ∈ d.logs, e.kondisi ∈ (["Ideal", "Panas", "Dingin"] : List String)) := by
  obtain ⟨h1, h2, h3, h4, -⟩ := h
  rw [h1, h2, h3, h4, countP_three_label DhtEntry.kondisi "Ideal" "Panas" "Dingin"
    (by decide) (by decide) (by decide)]
  refine ⟨List.countP_le_length _, ?_⟩
  rw [List.countP_eq_length]
  constructor
  · intro hall e he
    have h0 := hall e he
    simp only [Bool.or_eq_true, beq_iff_eq] at h0
    simp only [List.mem_cons, List.mem_singleton, List.not_mem_nil, or_false]
    tauto
  · intro hall e he
    have h0 := hall e he
    simp only [List.mem_cons, List.mem_singleton, List.not_mem_nil, or_false] at h0
    simp only [Bool.or_eq_true, beq_iff_eq]
    tauto

lemma gas_sum_bound (g : GasState) (h : gasInv g) :
    g.gas_stats.aman_count + g.gas_stats.waspada_count + g.gas_stats.bahaya_count
      ≤ g.gas_stats.total_messages ∧
    (g.gas_stats.aman_count + g.gas_stats.waspada_count + g.gas_stats.bahaya_count
        = g.gas_stats.total_messages ↔
      ∀ e ∈ g.gas_logs, e.kondisi ∈ (["Aman", "Waspada", "Bahaya"] : List String)) := by
  obtain ⟨h1, h2, h3, h4, -⟩ := h
  rw [h1, h2, h3, h4, countP_three_label GasEntry.kondisi "Aman" "Waspada" "Bahaya"
    (by decide) (by decide) (by decide)]
  refine ⟨List.countP_le_length _, ?_⟩
  rw [List.countP_eq_length]
  constructor
  · intro hall e he
    have h0 := hall e he
    simp only [Bool.or_eq_true, beq_iff_eq] at h0
    simp only [List.mem_cons, List.mem_singleton, List.not_mem_nil, or_false]
    tauto
  · intro hall e he
    have h0 := hall e he
    simp only [List.mem_cons, List.mem_singleton, List.not_mem_nil, or_false] at h0
    simp only [Bool.or_eq_true, beq_iff_eq]
    tauto

lemma ldr_sum_bound (l : LdrState) (h : ldrInv l) :
    l.ldr_stats.terang_count + l.ldr_stats.redup_count + l.ldr_stats.gelap_count
      ≤ l.ldr_stats.total_messages ∧
    (l.ldr_stats.terang_count + l.ldr_stats.redup_count + l.ldr_stats.gelap_count
        = l.ldr_stats.total_messages ↔
      ∀ e ∈ l.ldr_logs, e.kondisi ∈ (["Terang", "Redup", "Gelap"] : List String)) := by
  obtain ⟨h1, h2, h3, h4, -⟩ := h
  rw [h1, h2, h3, h4, countP_three_label LdrEntry.kondisi "Terang" "Redup" "Gelap"
    (by decide) (by decide) (by decide)]
  refine ⟨List.countP_le_length _, ?_⟩
  rw [List.countP_eq_length]
  constructor
  · intro hall e he
    have h0 := hall e he
    simp only [Bool.or_eq_true, beq_iff_eq] at h0
    simp only [List.mem_cons, List.mem_singleton, List.not_mem_nil, or_false]
    tauto
  · intro hall e he
    have h0 := hall e he
    simp only [List.mem_cons, List.mem_singleton, List.not_mem_nil, or_false] at h0
    simp only [Bool.or_eq_true, beq_iff_eq]
    tauto

/-- C4: after any sequence of processed readings, on every channel the
`total_messages` counter equals the number of appended records, the sum
of the category counters is at most the total, with equality exactly when
every appended record's label lies in the channel's vocabulary; and a
record whose label is outside the vocabulary (`"Unknown"`, `"Error"`,
`"No Model"`, ...) increments the total only, leaving every category
counter unchanged. -/
theorem c4_stats_vocabulary :
    (∀ evs : List Event,
      ((run evs appInit).dht.stats.total_messages
          = (run evs appInit).dht.logs.length ∧
        (run evs appInit).dht.stats.ideal_count
            + (run evs appInit).dht.stats.panas_count
            + (run evs appInit).dht.stats.dingin_count
          ≤ (run evs appInit).dht.stats.total_messages ∧
        ((run evs appInit).dht.stats.ideal_count
              + (run evs appInit).dht.stats.panas_count
              + (run evs appInit).dht.stats.dingin_count
            = (run evs appInit).dht.stats.total_messages ↔
          ∀ e ∈ (run evs appInit).dht.logs,
            e.kondisi ∈ (["Ideal", "Panas", "Dingin"] : List String))) ∧
      ((run evs appInit).gas.gas_stats.total_messages
          = (run evs appInit).gas.gas_logs.length ∧
        (run evs appInit).gas.gas_stats.aman_count
            + (run evs appInit).gas.gas_stats.waspada_count
            + (run evs appInit).gas.gas_stats.bahaya_count
          ≤ (run evs appInit).gas.gas_stats.total_messages ∧
        ((run evs appInit).gas.gas_stats.aman_count
              + (run evs appInit).gas.gas_stats.waspada_count
              + (run evs appInit).gas.gas_stats.bahaya_count
            = (run evs appInit).gas.gas_stats.total_messages ↔
          ∀ e ∈ (run evs appInit).gas.gas_logs,
            e.kondisi ∈ (["Aman", "Waspada", "Bahaya"] : List String))) ∧
      ((run evs appInit).ldr.ldr_stats.total_messages
          = (run evs appInit).ldr.ldr_logs.length ∧
        (run evs appInit).ldr.ldr_stats.terang_count
            + (run evs appInit).ldr.ldr_stats.redup_count
            + (run evs appInit).ldr.ldr_stats.gelap_count
          ≤ (run evs appInit).ldr.ldr_stats.total_messages ∧
        ((run evs appInit).ldr.ldr_stats.terang_count
              + (run evs appInit).ldr.ldr_stats.redup_count
              + (run evs appInit).ldr.ldr_stats.gelap_count
            = (run evs appInit).ldr.ldr_stats.total_messages ↔
          ∀ e ∈ (run evs appInit).ldr.ldr_logs,
            e.kondisi ∈ (["Terang", "Redup", "Gelap"] : List String)))) ∧
    (∀ (e : DhtEntry) (s : DhtState),
      e.kondisi ∉ (["Ideal", "Panas", "Dingin"] : List String) →
      (recordDht e s).stats.total_messages = s.stats.total_messages + 1 ∧
      (recordDht e s).stats.ideal_count = s.stats.ideal_count ∧
      (recordDht e s).stats.panas_count = s.stats.panas_count ∧
      (recordDht e s).stats.dingin_count = s.stats.dingin_count) ∧
    (∀ (e : GasEntry) (s : GasState),
      e.kondisi ∉ (["Aman", "Waspada", "Bahaya"] : List String) →
      (recordGas e s).gas_stats.total_messages = s.gas_stats.total_messages + 1 ∧
      (recordGas e s).gas_stats.aman_count = s.gas_stats.aman_count ∧
      (recordGas e s).gas_stats.waspada_count = s.gas_stats.waspada_count ∧
      (recordGas e s).gas_stats.bahaya_count = s.gas_stats.bahaya_count) ∧
    (∀ (e : LdrEntry) (s : LdrState),
      e.kondisi ∉ (["Terang", "Redup", "Gelap"] : List String) →
      (recordLdr e s).ldr_stats.total_messages = s.ldr_stats.total_messages + 1 ∧
      (recordLdr e s).ldr_stats.terang_count = s.ldr_stats.terang_count ∧
      (recordLdr e s).ldr_stats.redup_count = s.ldr_stats.redup_count ∧
      (recordLdr e s).ldr_stats.gelap_count = s.ldr_stats.gelap_count) := by
  refine ⟨?_, ?_, ?_, ?_⟩
  · intro evs
    obtain ⟨hd, hg, hl⟩ := appInv_run evs appInit appInv_init
    obtain ⟨hdle, hdiff⟩ := dht_sum_bound _ hd
    obtain ⟨hgle, hgiff⟩ := gas_sum_bound _ hg
    obtain ⟨hlle, hliff⟩ := ldr_sum_bound _ hl
    exact ⟨⟨hd.1, hdle, hdiff⟩, ⟨hg.1, hgle, hgiff⟩, ⟨hl.1, hlle, hliff⟩⟩
  · intro e s hout
    simp only [List.mem_cons, List.mem_singleton, not_or] at hout
    obtain ⟨hI, hP, hD⟩ := hout
    simp [recordDht, hI, hP, hD]
  · intro e s hout
    simp only [List.mem_cons, List.mem_singleton, not_or] at hout
    obtain ⟨hA, hW, hB⟩ := hout
    simp [recordGas, hA, hW, hB]
  · intro e s hout
    simp only [List.mem_cons, List.mem_singleton, not_or] at hout
    obtain ⟨hT, hR, hG⟩ := hout
    simp [recordLdr, hT, hR, hG]

/-- C4 witness: an `"Error"`-labelled record on each channel increments
the total only, leaving every category counter unchanged. -/
theorem c4_stats_vocabulary_witness :
    ((recordDht ⟨"t", 0, 0, "Error", 0⟩ dhtInit).stats.total_messages
        = dhtInit.stats.total_messages + 1 ∧
      (recordDht ⟨"t", 0, 0, "Error", 0⟩ dhtInit).stats.ideal_count
        = dhtInit.stats.ideal_count ∧
      (recordDht ⟨"t", 0, 0, "Error", 0⟩ dhtInit).stats.panas_count
        = dhtInit.stats.panas_count ∧
      (recordDht ⟨"t", 0, 0, "Error", 0⟩ dhtInit).stats.dingin_count
        = dhtInit.stats.dingin_count) ∧
    ((recordGas ⟨"t", .jbool false, .jnum 0, "Error", 0⟩ gasInit).gas_stats.total_messages
        = gasInit.gas_stats.total_messages + 1 ∧
      (recordGas ⟨"t", .jbool false, .jnum 0, "Error", 0⟩ gasInit).gas_stats.aman_count
        = gasInit.gas_stats.aman_count ∧
      (recordGas ⟨"t", .jbool false, .jnum 0, "Error", 0⟩ gasInit).gas_stats.waspada_count
        = gasInit.gas_stats.waspada_count ∧
      (recordGas ⟨"t", .jbool false, .jnum 0, "Error", 0⟩ gasInit).gas_stats.bahaya_count
        = gasInit.gas_stats.bahaya_count) ∧
    ((recordLdr ⟨"t", 0, "Error", 0⟩ ldrInit).ldr_stats.total_messages
        = ldrInit.ldr_stats.total_messages + 1 ∧
      (recordLdr ⟨"t", 0, "Error", 0⟩ ldrInit).ldr_stats.terang_count
        = ldrInit.ldr_stats.terang_count ∧
      (recordLdr ⟨"t", 0, "Error", 0⟩ ldrInit).ldr_stats.redup_count
        = ldrInit.ldr_stats.redup_count ∧
      (recordLdr ⟨"t", 0, "Error", 0⟩ ldrInit).ldr_stats.gelap_count
        = ldrInit.ldr_stats.gelap_count) :=
  ⟨c4_stats_vocabulary.2.1 ⟨"t", 0, 0, "Error", 0⟩ dhtInit (by decide),
   c4_stats_vocabulary.2.2.1 ⟨"t", .jbool false, .jnum 0, "Error", 0⟩ gasInit (by decide),
   c4_stats_vocabulary.2.2.2 ⟨"t", 0, "Error", 0⟩ ldrInit (by decide)⟩

/-- C10: after any sequence of handled messages, each channel's
`last_data` equals the last element of its log (`none` for an empty log);
and every successful handler call grows the log by exactly one entry,
with `last_data` equal to that appended record. -/
theorem c10_last_data_tracks_log :
    (∀ evs : List Event,
      (run evs appInit).dht.last_data = (run evs appInit).dht.logs.getLast? ∧
      (run evs appInit).gas.gas_last_data
        = (run evs appInit).gas.gas_logs.getLast? ∧
      (run evs appInit).ldr.ldr_last_data
        = (run evs appInit).ldr.ldr_logs.getLast?) ∧
    (∀ (loaded : Bool) (model : Option DhtModel) (pub : Except Unit Unit)
        (ts : String) (data : JObj) (s s' : DhtState),
      handle_dht_message loaded model pub ts data s = .ok s' →
      s'.logs.length = s.logs.length + 1 ∧ s'.last_data = s'.logs.getLast?) ∧
    (∀ (loaded : Bool) (model : Option GasModel) (pub : Except Unit Unit)
        (ts : String) (data : JObj) (s s' : GasState),
      handle_gas_message loaded model pub ts data s = .ok s' →
      s'.gas_logs.length = s.gas_logs.length + 1 ∧
      s'.gas_last_data = s'.gas_logs.getLast?) ∧
    (∀ (loaded : Bool) (model : Option LdrModel) (pub : Except Unit Unit)
        (ts : String) (data : JObj) (s s' : LdrState),
      handle_ldr_message loaded model pub ts data s = .ok s' →
      s'.ldr_logs.length = s.ldr_logs.length + 1 ∧
      s'.ldr_last_data = s'.ldr_logs.getLast?) := by
  refine ⟨?_, ?_, ?_, ?_⟩
  · intro evs
    obtain ⟨hd, hg, hl⟩ := appInv_run evs appInit appInv_init
    exact ⟨hd.2.2.2.2, hg.2.2.2.2, hl.2.2.2.2⟩
  · intro loaded model pub ts data s s' hok
    obtain ⟨temp, humidity, k, c, -, -, hs⟩ :=
      handle_dht_message_ok loaded model pub ts data s s' hok
    subst hs
    simp [recordDht, List.getLast?_concat]
  · intro loaded model pub ts data s s' hok
    obtain ⟨k, c, hs⟩ := handle_gas_message_ok loaded model pub ts data s s' hok
    subst hs
    simp [recordGas, List.getLast?_concat]
  · intro loaded model pub ts data s s' hok
    obtain ⟨v, k, c, -, hs⟩ := handle_ldr_message_ok loaded model pub ts data s s' hok
    subst hs
    simp [recordLdr, List.getLast?_concat]

/-- C10 witness: one concrete handled message per channel grows the log
to length 1 with `last_data` the appended record. -/
theorem c10_last_data_tracks_log_witness :
    ((recordDht ⟨"t", 0, 0, "No Model", 0⟩ dhtInit).logs.length
        = dhtInit.logs.length + 1 ∧
      (recordDht ⟨"t", 0, 0, "No Model", 0⟩ dhtInit).last_data
        = (recordDht ⟨"t", 0, 0, "No Model", 0⟩ dhtInit).logs.getLast?) ∧
    ((recordGas ⟨"t", .jbool false, .jnum 0, "Aman", 100⟩ gasInit).gas_logs.length
        = gasInit.gas_logs.length + 1 ∧
      (recordGas ⟨"t", .jbool false, .jnum 0, "Aman", 100⟩ gasInit).gas_last_data
        = (recordGas ⟨"t", .jbool false, .jnum 0, "Aman", 100⟩ gasInit).gas_logs.getLast?) ∧
    ((recordLdr ⟨"t", 0, "Terang", 100⟩ ldrInit).ldr_logs.length
        = ldrInit.ldr_logs.length + 1 ∧
      (recordLdr ⟨"t", 0, "Terang", 100⟩ ldrInit).ldr_last_data
        = (recordLdr ⟨"t", 0, "Terang", 100⟩ ldrInit).ldr_logs.getLast?) :=
  ⟨c10_last_data_tracks_log.2.1 false none (.ok ()) "t" [] dhtInit
      (recordDht ⟨"t", 0, 0, "No Model", 0⟩ dhtInit) rfl,
   c10_last_data_tracks_log.2.2.1 false none (.ok ()) "t" [] gasInit
      (recordGas ⟨"t", .jbool false, .jnum 0, "Aman", 100⟩ gasInit) rfl,
   c10_last_data_tracks_log.2.2.2 false none (.ok ()) "t" [] ldrInit
      (recordLdr ⟨"t", 0, "Terang", 100⟩ ldrInit) rfl⟩

lemma recordDht_stats_mono (e : DhtEntry) (s : DhtState) :
    s.stats.total_messages ≤ (recordDht e s).stats.total_messages ∧
    s.stats.ideal_count ≤ (recordDht e s).stats.ideal_count ∧
    s.stats.panas_count ≤ (recordDht e s).stats.panas_count ∧
    s.stats.dingin_count ≤ (recordDht e s).stats.dingin_count := by
  simp only [recordDht]
  split_ifs <;> simp

lemma recordGas_stats_mono (e : GasEntry) (s : GasState) :
    s.gas_stats.total_messages ≤ (recordGas e s).gas_stats.total_messages ∧
    s.gas_stats.aman_count ≤ (recordGas e s).gas_stats.aman_count ∧
    s.gas_stats.waspada_count ≤ (recordGas e s).gas_stats.waspada_count ∧
    s.gas_stats.bahaya_count ≤ (recordGas e s).gas_stats.bahaya_count := by
  simp only [recordGas]
  split_ifs <;> simp

lemma recordLdr_stats_mono (e : LdrEntry) (s : LdrState) :
    s.ldr_stats.total_messages ≤ (recordLdr e s).ldr_stats.total_messages ∧
    s.ldr_stats.terang_count ≤ (recordLdr e s).ldr_stats.terang_count ∧
    s.ldr_stats.redup_count ≤ (recordLdr e s).ldr_stats.redup_count ∧
    s.ldr_stats.gelap_count ≤ (recordLdr e s).ldr_stats.gelap_count := by
  simp only [recordLdr]
  split_ifs <;> simp

lemma step_stats_mono (ev : Event) (a : AppState) :
    (a.dht.stats.total_messages ≤ (step ev a).dht.stats.total_messages ∧
      a.dht.stats.ideal_count ≤ (step ev a).dht.stats.ideal_count ∧
      a.dht.stats.panas_count ≤ (step ev a).dht.stats.panas_count ∧
      a.dht.stats.dingin_count ≤ (step ev a).dht.stats.dingin_count) ∧
    (a.gas.gas_stats.total_messages ≤ (step ev a).gas.gas_stats.total_messages ∧
      a.gas.gas_stats.aman_count ≤ (step ev a).gas.gas_stats.aman_count ∧
      a.gas.gas_stats.waspada_count ≤ (step ev a).gas.gas_stats.waspada_count ∧
      a.gas.gas_stats.bahaya_count ≤ (step ev a).gas.gas_stats.bahaya_count) ∧
    (a.ldr.ldr_stats.total_messages ≤ (step ev a).ldr.ldr_stats.total_messages ∧
      a.ldr.ldr_stats.terang_count ≤ (step ev a).ldr.ldr_stats.terang_count ∧
      a.ldr.ldr_stats.redup_count ≤ (step ev a).ldr.ldr_stats.redup_count ∧
      a.ldr.ldr_stats.gelap_count ≤ (step ev a).ldr.ldr_stats.gelap_count) := by
  cases ev with
  | dhtMsg loaded model pub ts data =>
    cases hres : handle_dht_message loaded model pub ts data a.dht with
    | error e => simp [step, hres]
    | ok d' =>
      obtain ⟨temp, humidity, k, c, -, -, hs⟩ :=
        handle_dht_message_ok loaded model pub ts data a.dht d' hres
      subst hs
      simp only [step, hres]
      exact ⟨recordDht_stats_mono _ _,
        ⟨le_refl _, le_refl _, le_refl _, le_refl _⟩,
        ⟨le_refl _, le_refl _, le_refl _, le_refl _⟩⟩
  | gasMsg loaded model pub ts data =>
    cases hres : handle_gas_message loaded model pub ts data a.gas with
    | error e => simp [step, hres]
    | ok g' =>
      obtain ⟨k, c, hs⟩ := handle_gas_message_ok loaded model pub ts data a.gas g' hres
      subst hs
      simp only [step, hres]
      exact ⟨⟨le_refl _, le_refl _, le_refl _, le_refl _⟩,
        recordGas_stats_mono _ _,
        ⟨le_refl _, le_refl _, le_refl _, le_refl _⟩⟩
  | ldrMsg loaded model pub ts data =>
    cases hres : handle_ldr_message loaded model pub ts data a.ldr with
    | error e => simp [step, hres]
    | ok l' =>
      obtain ⟨v, k, c, -, hs⟩ :=
        handle_ldr_message_ok loaded model pub ts data a.ldr l' hres
      subst hs
      simp only [step, hres]
      exact ⟨⟨le_refl _, le_refl _, le_refl _, le_refl _⟩,
        ⟨le_refl _, le_refl _, le_refl _, le_refl _⟩,
        recordLdr_stats_mono _ _⟩

/-- C7 counterexample: a single temp/humidity reading processed with no
model loaded is labelled `"No Model"`, which is counted in
`total_messages` but in no category counter, so the total (1) differs
from the sum of the per-label counts (0). -/
theorem c7_total_eq_sum_counterexample :
    (run [.dhtMsg false none (.ok ()) "t" []] appInit).dht.stats.total_messages = 1 ∧
    (run [.dhtMsg false none (.ok ()) "t" []] appInit).dht.stats.ideal_count
        + (run [.dhtMsg false none (.ok ()) "t" []] appInit).dht.stats.panas_count
        + (run [.dhtMsg false none (.ok ()) "t" []] appInit).dht.stats.dingin_count
      = 0 ∧
    (run [.dhtMsg false none (.ok ()) "t" []] appInit).dht.stats.total_messages
      ≠ (run [.dhtMsg false none (.ok ()) "t" []] appInit).dht.stats.ideal_count
        + (run [.dhtMsg false none (.ok ()) "t" []] appInit).dht.stats.panas_count
        + (run [.dhtMsg false none (.ok ()) "t" []] appInit).dht.stats.dingin_count := by
  refine ⟨by decide, by decide, by decide⟩

/-- C7 (amended): after any sequence of processed readings, each
channel's `total_messages` is at least (not always equal to) the sum of
its per-label counts, and no counter is ever decremented: every
dispatched message leaves each of the twelve counters greater than or
equal to its previous value. -/
theorem c7_amended_total_ge_sum_monotone :
    (∀ evs : List Event,
      (run evs appInit).dht.stats.ideal_count
          + (run evs appInit).dht.stats.panas_count
          + (run evs appInit).dht.stats.dingin_count
        ≤ (run evs appInit).dht.stats.total_messages ∧
      (run evs appInit).gas.gas_stats.aman_count
          + (run evs appInit).gas.gas_stats.waspada_count
          + (run evs appInit).gas.gas_stats.bahaya_count
        ≤ (run evs appInit).gas.gas_stats.total_messages ∧
      (run evs appInit).ldr.ldr_stats.terang_count
          + (run evs appInit).ldr.ldr_stats.redup_count
          + (run evs appInit).ldr.ldr_stats.gelap_count
        ≤ (run evs appInit).ldr.ldr_stats.total_messages) ∧
    (∀ (ev : Event) (a : AppState),
      (a.dht.stats.total_messages ≤ (step ev a).dht.stats.total_messages ∧
        a.dht.stats.ideal_count ≤ (step ev a).dht.stats.ideal_count ∧
        a.dht.stats.panas_count ≤ (step ev a).dht.stats.panas_count ∧
        a.dht.stats.dingin_count ≤ (step ev a).dht.stats.dingin_count) ∧
      (a.gas.gas_stats.total_messages ≤ (step ev a).gas.gas_stats.total_messages ∧
        a.gas.gas_stats.aman_count ≤ (step ev a).gas.gas_stats.aman_count ∧
        a.gas.gas_stats.waspada_count ≤ (step ev a).gas.gas_stats.waspada_count ∧
        a.gas.gas_stats.bahaya_count ≤ (step ev a).gas.gas_stats.bahaya_count) ∧
      (a.ldr.ldr_stats.total_messages ≤ (step ev a).ldr.ldr_stats.total_messages ∧
        a.ldr.ldr_stats.terang_count ≤ (step ev a).ldr.ldr_stats.terang_count ∧
        a.ldr.ldr_stats.redup_count ≤ (step ev a).ldr.ldr_stats.redup_count ∧
        a.ldr.ldr_stats.gelap_count ≤ (step ev a).ldr.ldr_stats.gelap_count)) := by
  refine ⟨?_, step_stats_mono⟩
  intro evs
  obtain ⟨hd, hg, hl⟩ := appInv_run evs appInit appInv_init
  exact ⟨(dht_sum_bound _ hd).1, (gas_sum_bound _ hg).1, (ldr_sum_bound _ hl).1⟩
